import Mathlib

/-!
Shallow embedding of the monitoring engine of `src/iis_monitor.py`.

The engine's state lives in `MonitorStatus` (engine-wide counters), per-target
stat dicts (`TargetStat`), and the configuration (`ConfigManager`).  External
effects — HTTP probe outcomes, `appcmd` stop/start command outcomes — are
supplied as explicit inputs (`ProbeEvent`, `RestartEnv`), and one locked
per-target accounting block of `_check_cycle` becomes one pure step function.
`uptime_seconds` (a float derived from wall-clock time) is not modelled.
-/

namespace IISMon

/-- JSON-ish scalar values appearing in bulk-update entries.  JSON numbers are
modelled as integers; the nested-object and array cases of a field value do not
occur in the configuration fields the code reads. -/
inductive JVal
  | str (s : String)
  | int (n : Int)
  | bool (b : Bool)
  | null
deriving DecidableEq

/-- Python truthiness, as used by `bool(site_data.get("enabled", True))`. -/
def py_bool : JVal → Bool
  | .str s => s ≠ ""
  | .int n => n ≠ 0
  | .bool b => b
  | .null => false

/-- Python `str.strip()` (and the whitespace stripping `int(...)` performs on
a string argument): leading and trailing whitespace characters removed. -/
def py_strip (s : String) : String :=
  String.mk
    (((s.data.dropWhile Char.isWhitespace).reverse.dropWhile Char.isWhitespace).reverse)

/-- Python `int(...)` conversion on a JSON scalar: integers pass through,
booleans become 0/1, strings are parsed as optionally signed decimal literals
after stripping whitespace, and everything else raises (here: `none`). -/
def py_int : JVal → Option Int
  | .str s =>
      let t := py_strip s
      let t := if t.startsWith "+" then t.drop 1 else t
      t.toInt?
  | .int n => some n
  | .bool b => some (if b then 1 else 0)
  | .null => none

/-- One raw entry of a bulk-update JSON object: either a JSON object (a list of
fields) or a non-object value, which the code replaces by an empty dict. -/
inductive RawEntry
  | obj (fields : List (String × JVal))
  | nonDict (v : JVal)
deriving DecidableEq

def RawEntry.fields : RawEntry → List (String × JVal)
  | .obj fs => fs
  | .nonDict _ => []

/-- Python `site_data.get(key, dflt)`. -/
def RawEntry.getField (e : RawEntry) (k : String) (dflt : JVal) : JVal :=
  (e.fields.lookup k).getD dflt

/-- The `WebsiteConfig` dataclass.  The `url` field is stored untouched (Python
dataclasses do not check field types), so it keeps the raw JSON value. -/
structure WebsiteConfig where
  url : JVal := .str ""
  enabled : Bool := true
  check_timeout : Int := 10
  expected_status : Int := 200
deriving DecidableEq

/-- The `AppPoolConfig` dataclass. -/
structure AppPoolConfig where
  enabled : Bool := true
  auto_restart : Bool := true
  restart_delay : Int := 5
deriving DecidableEq

/-- The `MonitorStatus` dataclass (the engine-wide status block). -/
structure MonitorStatus where
  status : String := "stopped"
  start_time : Option String := none
  last_check_time : Option String := none
  total_checks : Nat := 0
  total_failures : Nat := 0
  total_restarts : Nat := 0
deriving DecidableEq

/-- One per-target stat dict, as seeded by `_init_status`:
`{"status": "unknown", "fail_count": 0, "last_check": "-", "total_checks": 0}`. -/
structure TargetStat where
  status : String := "unknown"
  fail_count : Nat := 0
  last_check : String := "-"
  total_checks : Nat := 0
deriving DecidableEq

/-- The `ConfigManager`: the two target maps (Python dicts, modelled as ordered
association lists) plus the global settings. -/
structure ConfigManager where
  websites : List (String × WebsiteConfig) := []
  app_pools : List (String × AppPoolConfig) := []
  check_interval : Int := 60
  max_failures : Nat := 3
  global_auto_restart : Bool := true
deriving DecidableEq

/-- Outcomes of the two `appcmd` invocations made by a restart helper:
whether the stop command succeeded and whether the start command succeeded. -/
structure RestartEnv where
  stopOk : Bool
  startOk : Bool
deriving DecidableEq

/-- What a restart helper did: its boolean return value and the number of
seconds it slept between the stop and the start command. -/
structure RestartResult where
  ok : Bool
  slept : Int
deriving DecidableEq

/-- The function `restart_website(site_name, delay=5)`: runs the stop command and discards
its result, sleeps `delay` seconds, then returns the start command's success.
The caller in `_handle_failure` passes no `delay`, so Python's default 5
applies there. -/
def restart_website (env : RestartEnv) (delay : Int) : RestartResult :=
  ⟨env.startOk, delay⟩

/-- The function `restart_app_pool(app_pool_name, delay=5)`: same shape as
`restart_website` — the stop result is discarded and the return value is the
start command's success. -/
def restart_app_pool (env : RestartEnv) (delay : Int) : RestartResult :=
  ⟨env.startOk, delay⟩

/-- The two target kinds, standing for the `type_name` strings that
`_check_cycle` passes to `_handle_failure`. -/
inductive TargetKind
  | site
  | pool
deriving DecidableEq

/-- Result of one locked per-target update (accounting plus, on a failure,
`_handle_failure`): the new stat dict, the new engine-wide status block,
whether a stop/start restart attempt was issued, and the list of delays slept
by restart helpers. -/
structure HandleResult where
  stat : TargetStat
  status : MonitorStatus
  attempted : Bool
  slept : List Int
deriving DecidableEq

/-- The method `IISMonitor._handle_failure(name, type_name, stat)`, called with the stat
dict whose `fail_count` the caller has just incremented.  It unconditionally
increments `total_failures`; when the (post-increment) `fail_count` has reached
`max_failures` and `global_auto_restart` is on, it calls the matching restart
helper provided the name has an entry in the matching config map (the
per-target `auto_restart` flag is not consulted, and no delay argument is
passed, so the helpers' default 5 is used); only a successful restart resets
`fail_count` to 0 and increments `total_restarts`. -/
def handle_failure (cm : ConfigManager) (name : String) (kind : TargetKind)
    (env : RestartEnv) (stat : TargetStat) (st : MonitorStatus) : HandleResult :=
  let st := { st with total_failures := st.total_failures + 1 }
  if cm.max_failures ≤ stat.fail_count then
    if cm.global_auto_restart then
      match kind with
      | .site =>
          if (cm.websites.lookup name).isSome then
            let r := restart_website env 5
            if r.ok then
              ⟨{ stat with fail_count := 0 },
               { st with total_restarts := st.total_restarts + 1 }, true, [r.slept]⟩
            else
              ⟨stat, st, true, [r.slept]⟩
          else
            ⟨stat, st, false, []⟩
      | .pool =>
          if (cm.app_pools.lookup name).isSome then
            let r := restart_app_pool env 5
            if r.ok then
              ⟨{ stat with fail_count := 0 },
               { st with total_restarts := st.total_restarts + 1 }, true, [r.slept]⟩
            else
              ⟨stat, st, true, [r.slept]⟩
          else
            ⟨stat, st, false, []⟩
    else
      ⟨stat, st, false, []⟩
  else
    ⟨stat, st, false, []⟩

/-- The externally observable outcome of one probe of one target: the probe
reported healthy, reported unhealthy, or raised an exception.  A failing
outcome carries the stop/start command outcomes the restart helper would see
if `_handle_failure` decides to restart. -/
inductive ProbeEvent
  | ok
  | fail (env : RestartEnv)
  | probeErr (env : RestartEnv)
deriving DecidableEq

/-- Whether this outcome takes a failing branch of the site check. -/
def ProbeEvent.isFail : ProbeEvent → Bool
  | .ok => false
  | .fail _ => true
  | .probeErr _ => true

/-- The locked per-target block of the website half of `_check_cycle`
(source lines 391-412), for a target whose stat dict already has its full set
of keys.  On a normal probe result it sets `last_check`, increments the
per-target `total_checks`, then branches on health; on a probe exception it
sets `status`/`fail_count`/`last_check` but does not touch `total_checks`. -/
def site_check_step (cm : ConfigManager) (name t : String) (ev : ProbeEvent)
    (stat : TargetStat) (st : MonitorStatus) : HandleResult :=
  match ev with
  | .ok =>
      let stat := { stat with
        last_check := t
        total_checks := stat.total_checks + 1
        status := "ok"
        fail_count := 0 }
      ⟨stat, st, false, []⟩
  | .fail env =>
      let stat := { stat with
        last_check := t
        total_checks := stat.total_checks + 1
        status := "error"
        fail_count := stat.fail_count + 1 }
      handle_failure cm name .site env stat st
  | .probeErr env =>
      let stat := { stat with
        status := "error"
        fail_count := stat.fail_count + 1
        last_check := t }
      handle_failure cm name .site env stat st

/-- The locked per-target block of the app-pool half of `_check_cycle`
(source lines 415-436).  Status strings are `running`/`stopped`; an exception
in a pool check only writes a log line and changes no state. -/
def pool_check_step (cm : ConfigManager) (name t : String) (ev : ProbeEvent)
    (stat : TargetStat) (st : MonitorStatus) : HandleResult :=
  match ev with
  | .ok =>
      let stat := { stat with
        last_check := t
        total_checks := stat.total_checks + 1
        status := "running"
        fail_count := 0 }
      ⟨stat, st, false, []⟩
  | .fail env =>
      let stat := { stat with
        last_check := t
        total_checks := stat.total_checks + 1
        status := "stopped"
        fail_count := stat.fail_count + 1 }
      handle_failure cm name .pool env stat st
  | .probeErr _ =>
      ⟨stat, st, false, []⟩

/-- Runs a sequence of checks of one target (each with its timestamp and probe
outcome), threading the stat dict and the engine status block, and returning
the per-check results alongside the final state. -/
def run_steps (step : String → ProbeEvent → TargetStat → MonitorStatus → HandleResult) :
    List (String × ProbeEvent) → TargetStat → MonitorStatus →
      TargetStat × MonitorStatus × List HandleResult
  | [], stat, st => (stat, st, [])
  | (t, ev) :: rest, stat, st =>
      let r := step t ev stat st
      let out := run_steps step rest r.stat r.status
      (out.1, out.2.1, r :: out.2.2)

/-- A run of consecutive checks of one website target. -/
def site_run (cm : ConfigManager) (name : String) :
    List (String × ProbeEvent) → TargetStat → MonitorStatus →
      TargetStat × MonitorStatus × List HandleResult :=
  run_steps (site_check_step cm name)

/-- A run of consecutive checks of one app-pool target. -/
def pool_run (cm : ConfigManager) (name : String) :
    List (String × ProbeEvent) → TargetStat → MonitorStatus →
      TargetStat × MonitorStatus × List HandleResult :=
  run_steps (pool_check_step cm name)

/-- The stat dict seeded by `_init_status` for a newly referenced name. -/
def seed_stat : TargetStat :=
  { status := "unknown", fail_count := 0, last_check := "-", total_checks := 0 }

/-- The method `IISMonitor._init_status`: for each configured name, insert a fresh
`unknown`/0 stat dict if — and only if — the name has no entry yet.  Existing
entries are left untouched and no entry is ever removed.  State tables are
modelled as partial maps from names to stat dicts. -/
def init_status (cfgNames : List String) (table : String → Option TargetStat) :
    String → Option TargetStat :=
  fun n =>
    match table n with
    | some s => some s
    | none => if n ∈ cfgNames then some seed_stat else none

/-- The state owned by one `IISMonitor` instance that the lifecycle claims
touch: the run flag, the engine-wide status block, and the two per-target
state tables. -/
structure Engine where
  running : Bool := false
  status : MonitorStatus := {}
  website_status : String → Option TargetStat := fun _ => none
  apppool_status : String → Option TargetStat := fun _ => none

/-- The method `IISMonitor.start()`: a no-op returning `false` when already running;
otherwise it sets the run flag, replaces the status block with a fresh
`running` one stamped with the current time, and calls `_init_status` on both
state tables. -/
def Engine.start (cm : ConfigManager) (now : String) (e : Engine) : Engine × Bool :=
  if e.running then (e, false)
  else
    ({ e with
        running := true
        status := { status := "running", start_time := some now }
        website_status := init_status (cm.websites.map Prod.fst) e.website_status
        apppool_status := init_status (cm.app_pools.map Prod.fst) e.apppool_status },
     true)

/-- Entry parsing of `save_web_config_json`: builds a `WebsiteConfig` from one raw entry.
`url` is taken as-is, `enabled` goes through Python truthiness, and the two
numeric fields go through `int(...)`, whose failure aborts this entry only
(here: `none`). -/
def parse_website_entry (e : RawEntry) : Option WebsiteConfig :=
  let url := e.getField "url" (.str "")
  let enabled := py_bool (e.getField "enabled" (.bool true))
  match py_int (e.getField "check_timeout" (.int 10)),
        py_int (e.getField "expected_status" (.int 200)) with
  | some ct, some es => some ⟨url, enabled, ct, es⟩
  | _, _ => none

/-- Entry parsing of `save_pool_config_json`: builds an `AppPoolConfig` from one raw entry. -/
def parse_pool_entry (e : RawEntry) : Option AppPoolConfig :=
  let enabled := py_bool (e.getField "enabled" (.bool true))
  let auto := py_bool (e.getField "auto_restart" (.bool true))
  match py_int (e.getField "restart_delay" (.int 5)) with
  | some rd => some ⟨enabled, auto, rd⟩
  | none => none

/-- The accumulators of a bulk-update loop: the rebuilt config map, the number
of entries applied, and the names of the entries whose validation failed (each
recorded error message names its entry). -/
structure SaveOutcome (α : Type) where
  entries : List (String × α) := []
  success_count : Nat := 0
  errors : List String := []
deriving DecidableEq

/-- The per-entry loop shared by `save_web_config_json` and
`save_pool_config_json`: an entry with an empty (or all-whitespace) name is
skipped silently; otherwise its config object is built inside a per-entry
`try`, so a failing entry is recorded by name and the loop continues. -/
def save_entries_go (parse : RawEntry → Option α) (acc : SaveOutcome α) :
    List (String × RawEntry) → SaveOutcome α
  | [] => acc
  | (n, e) :: rest =>
      if n = "" ∨ py_strip n = "" then
        save_entries_go parse acc rest
      else
        match parse e with
        | some cfg =>
            save_entries_go parse
              { acc with
                  entries := acc.entries ++ [(n, cfg)]
                  success_count := acc.success_count + 1 } rest
        | none =>
            save_entries_go parse { acc with errors := acc.errors ++ [n] } rest

/-- A bulk update starting from the cleared config map (the source clears the
map right after `json.loads` succeeds). -/
def save_entries (parse : RawEntry → Option α) (data : List (String × RawEntry)) :
    SaveOutcome α :=
  save_entries_go parse {} data

/-- The config-map effect of `save_web_config_json` on valid JSON. -/
def save_web_config (data : List (String × RawEntry)) : SaveOutcome WebsiteConfig :=
  save_entries parse_website_entry data

/-- The config-map effect of `save_pool_config_json` on valid JSON. -/
def save_pool_config (data : List (String × RawEntry)) : SaveOutcome AppPoolConfig :=
  save_entries parse_pool_entry data

/-- The function `save_web_config_json` followed by its mandatory `monitor._init_status()`
call: the website map is replaced by the parsed entries and the website state
table is re-initialised against the new names. -/
def save_web_config_apply (data : List (String × RawEntry))
    (table : String → Option TargetStat) :
    SaveOutcome WebsiteConfig × (String → Option TargetStat) :=
  let r := save_web_config data
  (r, init_status (r.entries.map Prod.fst) table)

/-!
Snapshot model.  In Python the per-target state tables are dicts of mutable
dicts; `get_status_snapshot` returns `dict(self.website_status)`, which copies
the outer name-to-dict association but keeps references to the same inner stat
dicts.  To express that reference semantics, inner dicts live in an explicit
heap addressed by `Nat` references, and a table maps names to references.
`asdict(self.status)` rebuilds a fresh dict of scalars, hence the status block
is stored by value.
-/

/-- The engine state visible to `get_status_snapshot`. -/
structure SnapEngine where
  status : MonitorStatus
  website_refs : List (String × Nat)
  apppool_refs : List (String × Nat)
  heap : Nat → TargetStat
  check_interval : Int
  max_failures : Nat

/-- The value returned by `get_status_snapshot` on success: a fresh copy of
the status-block scalars and config scalars, plus shallow copies of the two
outer maps — the name-to-reference associations, still pointing at the
engine's inner stat dicts. -/
structure Snapshot where
  monitor : MonitorStatus
  website_refs : List (String × Nat)
  apppool_refs : List (String × Nat)
  interval : Int
  max_fail : Nat

/-- The method `IISMonitor.get_status_snapshot` (the successful, lock-acquired case). -/
def get_status_snapshot (e : SnapEngine) : Snapshot :=
  { monitor := e.status
    website_refs := e.website_refs
    apppool_refs := e.apppool_refs
    interval := e.check_interval
    max_fail := e.max_failures }

/-- What a reader of the snapshot sees for a website name: it follows the
snapshot's stored reference into the (current) heap of inner stat dicts. -/
def snapshot_websites (s : Snapshot) (heap : Nat → TargetStat) (n : String) :
    Option TargetStat :=
  (s.website_refs.lookup n).map heap

/-- What the engine itself holds for a website name. -/
def engine_websites (e : SnapEngine) (n : String) : Option TargetStat :=
  (e.website_refs.lookup n).map e.heap

/-- The monitoring loop's in-place mutation `stat["fail_count"] += 1` of one
website's stat dict: an update of the shared inner dict through the engine's
reference. -/
def bump_fail_count (e : SnapEngine) (name : String) : SnapEngine :=
  match e.website_refs.lookup name with
  | some r =>
      { e with
          heap := fun q =>
            if q = r then
              { e.heap r with fail_count := (e.heap r).fail_count + 1 }
            else e.heap q }
  | none => e

/-- The in-cycle lazy seeding `self.website_status[name] = {...}` of a fresh
stat dict at an unused reference: a new inner dict is allocated and the
engine's outer map gains an entry for it. -/
def seed_new_website (e : SnapEngine) (name : String) (r : Nat) (s : TargetStat) :
    SnapEngine :=
  { e with
      website_refs := e.website_refs ++ [(name, r)]
      heap := fun q => if q = r then s else e.heap q }

/-!  Concrete instances used to evaluate the definitions on explicit inputs. -/

/-- A configuration with one website and one pool target named `a`, default
global settings (`max_failures = 3`, `global_auto_restart = true`). -/
def cmW : ConfigManager := { websites := [("a", {})], app_pools := [("a", {})] }

/-- A configuration whose single pool asks for a 10-second restart delay. -/
def cmC5 : ConfigManager := { app_pools := [("p", { restart_delay := 10 })] }

/-- A configuration whose single pool opts out of auto-restart. -/
def cmC6 : ConfigManager := { app_pools := [("p", { auto_restart := false })] }

/-- A configuration with one website target named `a` only. -/
def cmC4 : ConfigManager := { websites := [("a", {})] }

/-- A stat dict at the (post-increment) failure threshold of 3. -/
def statAt3 : TargetStat :=
  { status := "stopped", fail_count := 3, last_check := "10:00:00", total_checks := 3 }

/-- A healthy stat dict whose seventh check finished at 10:00:00. -/
def statC7 : TargetStat :=
  { status := "ok", fail_count := 0, last_check := "10:00:00", total_checks := 7 }

/-- A state table holding entries for `a` (2 consecutive failures) and `b`
(4 consecutive failures). -/
def tblC4 : String → Option TargetStat := fun n =>
  if n = "a" then some { status := "error", fail_count := 2, last_check := "09:59:00", total_checks := 7 }
  else if n = "b" then some { status := "error", fail_count := 4, last_check := "09:58:00", total_checks := 9 }
  else none

/-- A stopped engine whose website state table is `tblC4`. -/
def engC4 : Engine := { website_status := tblC4 }

/-- An engine with one website entry `a` whose stat dict lives at heap
reference 0. -/
def snapEngC8 : SnapEngine :=
  { status := {}
    website_refs := [("a", 0)]
    apppool_refs := []
    heap := fun _ => { status := "ok", fail_count := 0, last_check := "10:00:00", total_checks := 3 }
    check_interval := 60
    max_failures := 3 }

/-- Two consecutive failing checks whose restart attempts fail. -/
def evsW : List (String × ProbeEvent) :=
  [("10:01:00", .fail ⟨true, false⟩), ("10:02:00", .fail ⟨true, false⟩)]

/-!  Helper lemmas. -/

/-- Whether `name` has an entry in the config map matching `kind` — the only
per-target condition `_handle_failure` checks before restarting. -/
def kind_lookup (cm : ConfigManager) (name : String) : TargetKind → Bool
  | .site => (cm.websites.lookup name).isSome
  | .pool => (cm.app_pools.lookup name).isSome

/-- The exact condition under which `_handle_failure` issues a restart
attempt. -/
def restart_condition (cm : ConfigManager) (name : String) (kind : TargetKind)
    (stat : TargetStat) : Bool :=
  decide (cm.max_failures ≤ stat.fail_count) && cm.global_auto_restart &&
    kind_lookup cm name kind

theorem handle_failure_eq (cm : ConfigManager) (name : String) (kind : TargetKind)
    (env : RestartEnv) (stat : TargetStat) (st : MonitorStatus) :
    handle_failure cm name kind env stat st =
      { stat := if restart_condition cm name kind stat && env.startOk then
            { stat with fail_count := 0 }
          else stat
        status := { st with
          total_failures := st.total_failures + 1
          total_restarts := if restart_condition cm name kind stat && env.startOk then
              st.total_restarts + 1
            else st.total_restarts }
        attempted := restart_condition cm name kind stat
        slept := if restart_condition cm name kind stat then [5] else [] } := by
  cases kind with
  | site =>
      by_cases h1 : cm.max_failures ≤ stat.fail_count
      · by_cases h2 : cm.global_auto_restart = true
        · by_cases h3 : (cm.websites.lookup name).isSome = true
          · by_cases h4 : env.startOk = true
            · simp [handle_failure, restart_condition, kind_lookup, restart_website,
                h1, h2, h3, h4]
            · simp [handle_failure, restart_condition, kind_lookup, restart_website,
                h1, h2, h3, h4]
          · simp [handle_failure, restart_condition, kind_lookup, h1, h2, h3]
        · simp [handle_failure, restart_condition, kind_lookup, h1, h2]
      · simp [handle_failure, restart_condition, kind_lookup, h1]
  | pool =>
      by_cases h1 : cm.max_failures ≤ stat.fail_count
      · by_cases h2 : cm.global_auto_restart = true
        · by_cases h3 : (cm.app_pools.lookup name).isSome = true
          · by_cases h4 : env.startOk = true
            · simp [handle_failure, restart_condition, kind_lookup, restart_app_pool,
                h1, h2, h3, h4]
            · simp [handle_failure, restart_condition, kind_lookup, restart_app_pool,
                h1, h2, h3, h4]
          · simp [handle_failure, restart_condition, kind_lookup, h1, h2, h3]
        · simp [handle_failure, restart_condition, kind_lookup, h1, h2]
      · simp [handle_failure, restart_condition, kind_lookup, h1]

theorem handle_failure_attempted (cm : ConfigManager) (name : String)
    (kind : TargetKind) (env : RestartEnv) (stat : TargetStat) (st : MonitorStatus) :
    (handle_failure cm name kind env stat st).attempted =
      restart_condition cm name kind stat := by
  rw [handle_failure_eq]

theorem handle_failure_fail_count (cm : ConfigManager) (name : String)
    (kind : TargetKind) (env : RestartEnv) (stat : TargetStat) (st : MonitorStatus) :
    (handle_failure cm name kind env stat st).stat.fail_count =
      if restart_condition cm name kind stat && env.startOk then 0
      else stat.fail_count := by
  rw [handle_failure_eq]; split_ifs <;> rfl

theorem handle_failure_stat_last_check (cm : ConfigManager) (name : String)
    (kind : TargetKind) (env : RestartEnv) (stat : TargetStat) (st : MonitorStatus) :
    (handle_failure cm name kind env stat st).stat.last_check = stat.last_check := by
  rw [handle_failure_eq]; split_ifs <;> rfl

theorem handle_failure_stat_total_checks (cm : ConfigManager) (name : String)
    (kind : TargetKind) (env : RestartEnv) (stat : TargetStat) (st : MonitorStatus) :
    (handle_failure cm name kind env stat st).stat.total_checks =
      stat.total_checks := by
  rw [handle_failure_eq]; split_ifs <;> rfl

theorem handle_failure_status_total_checks (cm : ConfigManager) (name : String)
    (kind : TargetKind) (env : RestartEnv) (stat : TargetStat) (st : MonitorStatus) :
    (handle_failure cm name kind env stat st).status.total_checks =
      st.total_checks := by
  rw [handle_failure_eq]

theorem handle_failure_total_failures (cm : ConfigManager) (name : String)
    (kind : TargetKind) (env : RestartEnv) (stat : TargetStat) (st : MonitorStatus) :
    (handle_failure cm name kind env stat st).status.total_failures =
      st.total_failures + 1 := by
  rw [handle_failure_eq]

theorem handle_failure_total_restarts (cm : ConfigManager) (name : String)
    (kind : TargetKind) (env : RestartEnv) (stat : TargetStat) (st : MonitorStatus) :
    (handle_failure cm name kind env stat st).status.total_restarts =
      if restart_condition cm name kind stat && env.startOk then
        st.total_restarts + 1
      else st.total_restarts := by
  rw [handle_failure_eq]

theorem handle_failure_slept (cm : ConfigManager) (name : String)
    (kind : TargetKind) (env : RestartEnv) (stat : TargetStat) (st : MonitorStatus) :
    (handle_failure cm name kind env stat st).slept =
      if restart_condition cm name kind stat then [5] else [] := by
  rw [handle_failure_eq]

theorem handle_failure_restarts_mono (cm : ConfigManager) (name : String)
    (kind : TargetKind) (env : RestartEnv) (stat : TargetStat) (st : MonitorStatus) :
    st.total_restarts ≤ (handle_failure cm name kind env stat st).status.total_restarts := by
  rw [handle_failure_total_restarts]; split_ifs <;> omega

theorem site_step_restarts_mono (cm : ConfigManager) (name t : String)
    (ev : ProbeEvent) (stat : TargetStat) (st : MonitorStatus) :
    st.total_restarts ≤ (site_check_step cm name t ev stat st).status.total_restarts := by
  cases ev with
  | ok => exact Nat.le_refl _
  | fail env => exact handle_failure_restarts_mono ..
  | probeErr env => exact handle_failure_restarts_mono ..

theorem pool_step_restarts_mono (cm : ConfigManager) (name t : String)
    (ev : ProbeEvent) (stat : TargetStat) (st : MonitorStatus) :
    st.total_restarts ≤ (pool_check_step cm name t ev stat st).status.total_restarts := by
  cases ev with
  | ok => exact Nat.le_refl _
  | fail env => exact handle_failure_restarts_mono ..
  | probeErr env => exact Nat.le_refl _

theorem run_steps_restarts_mono
    (step : String → ProbeEvent → TargetStat → MonitorStatus → HandleResult)
    (hmono : ∀ t ev stat st, st.total_restarts ≤ (step t ev stat st).status.total_restarts)
    (evs : List (String × ProbeEvent)) (stat : TargetStat) (st : MonitorStatus) :
    st.total_restarts ≤ (run_steps step evs stat st).2.1.total_restarts := by
  induction evs generalizing stat st with
  | nil => exact Nat.le_refl _
  | cons p rest ih =>
      exact Nat.le_trans (hmono p.1 p.2 stat st) (ih _ _)

/-- Generic consecutive-failure counting: if every event in the run satisfies
`Pev`, a `Pev` step with no restart-counter increase bumps `fail_count` by one,
and the whole run left `total_restarts` unchanged (no successful restart
anywhere in it), then `fail_count` grows by exactly the number of checks. -/
theorem run_steps_fail_count
    (step : String → ProbeEvent → TargetStat → MonitorStatus → HandleResult)
    (hmono : ∀ t ev stat st, st.total_restarts ≤ (step t ev stat st).status.total_restarts)
    (Pev : ProbeEvent → Prop)
    (hstep : ∀ t ev stat st, Pev ev →
      (step t ev stat st).status.total_restarts = st.total_restarts →
      (step t ev stat st).stat.fail_count = stat.fail_count + 1) :
    ∀ (evs : List (String × ProbeEvent)) (stat : TargetStat) (st : MonitorStatus),
      (∀ p ∈ evs, Pev p.2) →
      (run_steps step evs stat st).2.1.total_restarts = st.total_restarts →
      (run_steps step evs stat st).1.fail_count = stat.fail_count + evs.length := by
  intro evs
  induction evs with
  | nil => intro stat st _ _; simp [run_steps]
  | cons p rest ih =>
      obtain ⟨t, ev⟩ := p
      intro stat st hP hres
      have hmem : Pev ev := hP (t, ev) (List.mem_cons_self ..)
      have hP' : ∀ q ∈ rest, Pev q.2 := fun q hq => hP q (List.mem_cons_of_mem _ hq)
      have h1 : st.total_restarts ≤ (step t ev stat st).status.total_restarts :=
        hmono ..
      have h2 : (step t ev stat st).status.total_restarts ≤
          (run_steps step ((t, ev) :: rest) stat st).2.1.total_restarts := by
        simpa [run_steps] using
          run_steps_restarts_mono step hmono rest (step t ev stat st).stat
            (step t ev stat st).status
      have heq : (step t ev stat st).status.total_restarts = st.total_restarts := by
        omega
      have hbump := hstep t ev stat st hmem heq
      have hres' : (run_steps step rest (step t ev stat st).stat
          (step t ev stat st).status).2.1.total_restarts =
            (step t ev stat st).status.total_restarts := by
        have hsame : (run_steps step ((t, ev) :: rest) stat st).2.1 =
            (run_steps step rest (step t ev stat st).stat
              (step t ev stat st).status).2.1 := by
          simp [run_steps]
        rw [hsame] at hres
        omega
      have hih := ih (step t ev stat st).stat (step t ev stat st).status hP' hres'
      have hgoal : (run_steps step ((t, ev) :: rest) stat st).1 =
          (run_steps step rest (step t ev stat st).stat
            (step t ev stat st).status).1 := by
        simp [run_steps]
      rw [hgoal, hih, hbump]
      simp [Nat.add_assoc, Nat.add_comm 1 rest.length]

/-- Generic keep-retrying persistence: once `fail_count` is at least `m`, if
every `Pev` step with no restart-counter increase both attempts a restart and
keeps `fail_count` at `m` or above, then every check of such a run attempts a
restart. -/
theorem run_steps_all_attempted
    (step : String → ProbeEvent → TargetStat → MonitorStatus → HandleResult)
    (hmono : ∀ t ev stat st, st.total_restarts ≤ (step t ev stat st).status.total_restarts)
    (Pev : ProbeEvent → Prop) (m : Nat)
    (hstep : ∀ t ev stat st, Pev ev → m ≤ stat.fail_count →
      (step t ev stat st).status.total_restarts = st.total_restarts →
      (step t ev stat st).attempted = true ∧ m ≤ (step t ev stat st).stat.fail_count) :
    ∀ (evs : List (String × ProbeEvent)) (stat : TargetStat) (st : MonitorStatus),
      (∀ p ∈ evs, Pev p.2) → m ≤ stat.fail_count →
      (run_steps step evs stat st).2.1.total_restarts = st.total_restarts →
      ∀ r ∈ (run_steps step evs stat st).2.2, r.attempted = true := by
  intro evs
  induction evs with
  | nil => intro stat st _ _ _ r hr; simp [run_steps] at hr
  | cons p rest ih =>
      obtain ⟨t, ev⟩ := p
      intro stat st hP hm hres r hr
      have hmem : Pev ev := hP (t, ev) (List.mem_cons_self ..)
      have hP' : ∀ q ∈ rest, Pev q.2 := fun q hq => hP q (List.mem_cons_of_mem _ hq)
      have h1 : st.total_restarts ≤ (step t ev stat st).status.total_restarts :=
        hmono ..
      have h2 : (step t ev stat st).status.total_restarts ≤
          (run_steps step ((t, ev) :: rest) stat st).2.1.total_restarts := by
        simpa [run_steps] using
          run_steps_restarts_mono step hmono rest (step t ev stat st).stat
            (step t ev stat st).status
      have heq : (step t ev stat st).status.total_restarts = st.total_restarts := by
        omega
      obtain ⟨hatt, hkeep⟩ := hstep t ev stat st hmem hm heq
      have hres' : (run_steps step rest (step t ev stat st).stat
          (step t ev stat st).status).2.1.total_restarts =
            (step t ev stat st).status.total_restarts := by
        have hsame : (run_steps step ((t, ev) :: rest) stat st).2.1 =
            (run_steps step rest (step t ev stat st).stat
              (step t ev stat st).status).2.1 := by
          simp [run_steps]
        rw [hsame] at hres
        omega
      have hsplit : (run_steps step ((t, ev) :: rest) stat st).2.2 =
          step t ev stat st ::
            (run_steps step rest (step t ev stat st).stat
              (step t ev stat st).status).2.2 := by
        simp [run_steps]
      rw [hsplit] at hr
      rcases List.mem_cons.mp hr with h | h
      · rw [h]; exact hatt
      · exact ih (step t ev stat st).stat (step t ev stat st).status hP' hkeep
          hres' r h

/-- A failing site check that caused no restart-counter increase (no successful
restart) leaves `fail_count` exactly one higher. -/
theorem site_step_fail_count_bump (cm : ConfigManager) (name t : String)
    (ev : ProbeEvent) (stat : TargetStat) (st : MonitorStatus)
    (hf : ev.isFail = true)
    (hres : (site_check_step cm name t ev stat st).status.total_restarts =
      st.total_restarts) :
    (site_check_step cm name t ev stat st).stat.fail_count = stat.fail_count + 1 := by
  cases ev with
  | ok => simp [ProbeEvent.isFail] at hf
  | fail env =>
      simp only [site_check_step] at hres ⊢
      rw [handle_failure_total_restarts] at hres
      rw [handle_failure_fail_count]
      split_ifs at hres ⊢ <;> simp_all
  | probeErr env =>
      simp only [site_check_step] at hres ⊢
      rw [handle_failure_total_restarts] at hres
      rw [handle_failure_fail_count]
      split_ifs at hres ⊢ <;> simp_all

/-- A failing pool check (probe reported not-started) that caused no
restart-counter increase leaves `fail_count` exactly one higher. -/
theorem pool_step_fail_count_bump (cm : ConfigManager) (name t : String)
    (env : RestartEnv) (stat : TargetStat) (st : MonitorStatus)
    (hres : (pool_check_step cm name t (.fail env) stat st).status.total_restarts =
      st.total_restarts) :
    (pool_check_step cm name t (.fail env) stat st).stat.fail_count =
      stat.fail_count + 1 := by
  simp only [pool_check_step] at hres ⊢
  rw [handle_failure_total_restarts] at hres
  rw [handle_failure_fail_count]
  split_ifs at hres ⊢ <;> simp_all

/-- Once at the threshold, a failing site check with no successful restart both
attempts a restart and stays at or above the threshold. -/
theorem site_step_keep (cm : ConfigManager) (name : String)
    (hsite : (cm.websites.lookup name).isSome = true)
    (hglob : cm.global_auto_restart = true)
    (t : String) (ev : ProbeEvent) (stat : TargetStat) (st : MonitorStatus)
    (hf : ev.isFail = true) (hm : cm.max_failures ≤ stat.fail_count)
    (hres : (site_check_step cm name t ev stat st).status.total_restarts =
      st.total_restarts) :
    (site_check_step cm name t ev stat st).attempted = true ∧
      cm.max_failures ≤ (site_check_step cm name t ev stat st).stat.fail_count := by
  have hbump := site_step_fail_count_bump cm name t ev stat st hf hres
  refine ⟨?_, by omega⟩
  cases ev with
  | ok => simp [ProbeEvent.isFail] at hf
  | fail env =>
      simp only [site_check_step]
      rw [handle_failure_attempted]
      simp [restart_condition, kind_lookup, hsite, hglob]
      omega
  | probeErr env =>
      simp only [site_check_step]
      rw [handle_failure_attempted]
      simp [restart_condition, kind_lookup, hsite, hglob]
      omega

/-- Once at the threshold, a failing pool check with no successful restart both
attempts a restart and stays at or above the threshold. -/
theorem pool_step_keep (cm : ConfigManager) (name : String)
    (hpool : (cm.app_pools.lookup name).isSome = true)
    (hglob : cm.global_auto_restart = true)
    (t : String) (ev : ProbeEvent) (stat : TargetStat) (st : MonitorStatus)
    (hf : ∃ env, ev = ProbeEvent.fail env) (hm : cm.max_failures ≤ stat.fail_count)
    (hres : (pool_check_step cm name t ev stat st).status.total_restarts =
      st.total_restarts) :
    (pool_check_step cm name t ev stat st).attempted = true ∧
      cm.max_failures ≤ (pool_check_step cm name t ev stat st).stat.fail_count := by
  obtain ⟨env, rfl⟩ := hf
  have hbump := pool_step_fail_count_bump cm name t env stat st hres
  refine ⟨?_, by omega⟩
  simp only [pool_check_step]
  rw [handle_failure_attempted]
  simp [restart_condition, kind_lookup, hpool, hglob]
  omega

/-!  Claims. -/

/-- C1: for a configured target, a check issues a stop/start restart attempt
exactly when it is a failing check, `global_auto_restart` is enabled, and the
post-increment `fail_count` has reached `max_failures`; hence no attempt ever
occurs below the threshold or with the global gate off, and — as the last two
conjuncts state — once the threshold is reached, every subsequent failing
check of a run with no successful restart keeps attempting. -/
theorem c1_threshold_restart_policy (cm : ConfigManager) (name : String)
    (hsite : (cm.websites.lookup name).isSome = true)
    (hpool : (cm.app_pools.lookup name).isSome = true) :
    (∀ (t : String) (ev : ProbeEvent) (stat : TargetStat) (st : MonitorStatus),
      (site_check_step cm name t ev stat st).attempted =
        (ev.isFail && (decide (cm.max_failures ≤ stat.fail_count + 1) &&
          cm.global_auto_restart)))
    ∧ (∀ (t : String) (env : RestartEnv) (stat : TargetStat) (st : MonitorStatus),
      (pool_check_step cm name t (.fail env) stat st).attempted =
        (decide (cm.max_failures ≤ stat.fail_count + 1) && cm.global_auto_restart))
    ∧ (∀ (t : String) (stat : TargetStat) (st : MonitorStatus),
      (pool_check_step cm name t .ok stat st).attempted = false)
    ∧ (cm.global_auto_restart = true →
      ∀ (evs : List (String × ProbeEvent)) (stat : TargetStat) (st : MonitorStatus),
        (∀ p ∈ evs, p.2.isFail = true) →
        cm.max_failures ≤ stat.fail_count →
        (site_run cm name evs stat st).2.1.total_restarts = st.total_restarts →
        ∀ r ∈ (site_run cm name evs stat st).2.2, r.attempted = true)
    ∧ (cm.global_auto_restart = true →
      ∀ (evs : List (String × ProbeEvent)) (stat : TargetStat) (st : MonitorStatus),
        (∀ p ∈ evs, ∃ env, p.2 = ProbeEvent.fail env) →
        cm.max_failures ≤ stat.fail_count →
        (pool_run cm name evs stat st).2.1.total_restarts = st.total_restarts →
        ∀ r ∈ (pool_run cm name evs stat st).2.2, r.attempted = true) := by
  refine ⟨?_, ?_, ?_, ?_, ?_⟩
  · intro t ev stat st
    cases ev with
    | ok => simp [site_check_step, ProbeEvent.isFail]
    | fail env =>
        simp only [site_check_step]
        rw [handle_failure_attempted]
        simp [restart_condition, kind_lookup, hsite, ProbeEvent.isFail, Bool.and_comm]
    | probeErr env =>
        simp only [site_check_step]
        rw [handle_failure_attempted]
        simp [restart_condition, kind_lookup, hsite, ProbeEvent.isFail, Bool.and_comm]
  · intro t env stat st
    simp only [pool_check_step]
    rw [handle_failure_attempted]
    simp [restart_condition, kind_lookup, hpool, Bool.and_comm]
  · intro t stat st
    simp [pool_check_step]
  · intro hglob evs stat st hP hm hres
    exact run_steps_all_attempted (site_check_step cm name)
      (site_step_restarts_mono cm name) (fun ev => ev.isFail = true) cm.max_failures
      (fun t ev stat st hf hm' hres' => site_step_keep cm name hsite hglob t ev stat st
        hf hm' hres') evs stat st hP hm hres
  · intro hglob evs stat st hP hm hres
    exact run_steps_all_attempted (pool_check_step cm name)
      (pool_step_restarts_mono cm name) (fun ev => ∃ env, ev = ProbeEvent.fail env)
      cm.max_failures
      (fun t ev stat st hf hm' hres' => pool_step_keep cm name hpool hglob t ev stat st
        hf hm' hres') evs stat st hP hm hres

/-- C1 witness: with the default threshold 3 and auto-restart on, the failing
check that brings `fail_count` to 3 attempts a restart, a failing check at
count 1 does not, a healthy check does not, and a two-check failing run
starting at the threshold (with both restarts failing) attempts on both
checks. -/
theorem c1_threshold_restart_policy_witness :
    (site_check_step cmW "a" "10:00:00" (.fail ⟨true, false⟩)
        { status := "error", fail_count := 2, last_check := "-", total_checks := 2 }
        {}).attempted = true
    ∧ (site_check_step cmW "a" "10:00:00" (.fail ⟨true, false⟩)
        { status := "ok", fail_count := 0, last_check := "-", total_checks := 2 }
        {}).attempted = false
    ∧ (site_check_step cmW "a" "10:00:00" .ok statAt3 {}).attempted = false
    ∧ (site_run cmW "a" evsW statAt3 {}).2.2.all HandleResult.attempted = true := by
  have h := c1_threshold_restart_policy cmW "a" (by decide) (by decide)
  refine ⟨?_, ?_, ?_, ?_⟩
  · rw [h.1]; decide
  · rw [h.1]; decide
  · rw [h.1]; decide
  · exact List.all_eq_true.mpr
      (h.2.2.2.1 rfl evsW statAt3 {} (by decide) (by decide) (by decide))

/-- C2: any healthy probe of either kind resets `fail_count` to 0, and a run
of `k` consecutive failing checks starting from `fail_count = 0` during which
no restart succeeded (the restart counter is unchanged) ends with
`fail_count = k`. -/
theorem c2_fail_count_invariant (cm : ConfigManager) (name : String) :
    (∀ (t : String) (stat : TargetStat) (st : MonitorStatus),
      (site_check_step cm name t .ok stat st).stat.fail_count = 0)
    ∧ (∀ (t : String) (stat : TargetStat) (st : MonitorStatus),
      (pool_check_step cm name t .ok stat st).stat.fail_count = 0)
    ∧ (∀ (evs : List (String × ProbeEvent)) (stat : TargetStat) (st : MonitorStatus),
      stat.fail_count = 0 →
      (∀ p ∈ evs, p.2.isFail = true) →
      (site_run cm name evs stat st).2.1.total_restarts = st.total_restarts →
      (site_run cm name evs stat st).1.fail_count = evs.length)
    ∧ (∀ (evs : List (String × ProbeEvent)) (stat : TargetStat) (st : MonitorStatus),
      stat.fail_count = 0 →
      (∀ p ∈ evs, ∃ env, p.2 = ProbeEvent.fail env) →
      (pool_run cm name evs stat st).2.1.total_restarts = st.total_restarts →
      (pool_run cm name evs stat st).1.fail_count = evs.length) := by
  refine ⟨?_, ?_, ?_, ?_⟩
  · intro t stat st; simp [site_check_step]
  · intro t stat st; simp [pool_check_step]
  · intro evs stat st h0 hP hres
    have := run_steps_fail_count (site_check_step cm name)
      (site_step_restarts_mono cm name) (fun ev => ev.isFail = true)
      (fun t ev stat st hf hres' => site_step_fail_count_bump cm name t ev stat st
        hf hres') evs stat st hP hres
    simp only [site_run] at this ⊢
    omega
  · intro evs stat st h0 hP hres
    have := run_steps_fail_count (pool_check_step cm name)
      (pool_step_restarts_mono cm name) (fun ev => ∃ env, ev = ProbeEvent.fail env)
      (fun t ev stat st hf hres' => by
        obtain ⟨env, rfl⟩ := hf
        exact pool_step_fail_count_bump cm name t env stat st hres') evs stat st hP hres
    simp only [pool_run] at this ⊢
    omega

/-- C2 witness: from a fresh `unknown`/0 stat dict, two failing site checks
with failing restarts end at `fail_count = 2`, and a healthy check resets a
count of 3 to 0. -/
theorem c2_fail_count_invariant_witness :
    (site_run cmW "a" evsW seed_stat {}).1.fail_count = 2
    ∧ (site_check_step cmW "a" "10:03:00" .ok statAt3 {}).stat.fail_count = 0 := by
  have h := c2_fail_count_invariant cmW "a"
  exact ⟨h.2.2.1 evsW seed_stat {} rfl (by decide) (by decide), h.1 "10:03:00" statAt3 {}⟩

/-- C10: a remediation restart reports success exactly when the final start
command succeeds — the stop command's result is discarded by both helpers —
and in `_handle_failure` an attempted restart with a successful start resets
that target's `fail_count` to 0 and increments `total_restarts`, while an
attempted restart whose start fails leaves both unchanged. -/
theorem c10_restart_success_iff_start_ok :
    (∀ (env : RestartEnv) (delay : Int), (restart_website env delay).ok = env.startOk)
    ∧ (∀ (env : RestartEnv) (delay : Int), (restart_app_pool env delay).ok = env.startOk)
    ∧ (∀ (cm : ConfigManager) (name : String) (kind : TargetKind) (env : RestartEnv)
        (stat : TargetStat) (st : MonitorStatus),
        (handle_failure cm name kind env stat st).attempted = true →
          (env.startOk = true →
            (handle_failure cm name kind env stat st).stat.fail_count = 0 ∧
            (handle_failure cm name kind env stat st).status.total_restarts =
              st.total_restarts + 1)
          ∧ (env.startOk = false →
            (handle_failure cm name kind env stat st).stat.fail_count =
              stat.fail_count ∧
            (handle_failure cm name kind env stat st).status.total_restarts =
              st.total_restarts)) := by
  refine ⟨fun env delay => rfl, fun env delay => rfl, ?_⟩
  intro cm name kind env stat st hatt
  rw [handle_failure_attempted] at hatt
  constructor
  · intro hstart
    rw [handle_failure_fail_count, handle_failure_total_restarts]
    simp [hatt, hstart]
  · intro hstart
    rw [handle_failure_fail_count, handle_failure_total_restarts]
    simp [hatt, hstart]

/-- C10 witness: a failed stop followed by a successful start counts as a
successful restart — at the threshold it resets `fail_count` to 0 and bumps
`total_restarts` to 1. -/
theorem c10_restart_success_iff_start_ok_witness :
    (restart_website ⟨false, true⟩ 5).ok = true
    ∧ (handle_failure cmW "a" .site ⟨false, true⟩ statAt3 {}).attempted = true
    ∧ (handle_failure cmW "a" .site ⟨false, true⟩ statAt3 {}).stat.fail_count = 0
    ∧ (handle_failure cmW "a" .site ⟨false, true⟩ statAt3 {}).status.total_restarts = 1 := by
  have h := c10_restart_success_iff_start_ok
  have hatt : (handle_failure cmW "a" .site ⟨false, true⟩ statAt3 {}).attempted = true := by
    decide
  have h3 := (h.2.2 cmW "a" .site ⟨false, true⟩ statAt3 {} hatt).1 rfl
  exact ⟨(h.1 ⟨false, true⟩ 5).trans rfl, hatt, h3.1, h3.2⟩

/-- C3: no check of either kind ever changes the engine-wide
`MonitorStatus.total_checks` counter — the program never increments it — while
a normal site check does increment the per-target counter by exactly 1, as the
concrete evaluation shows (per-target counter 0 to 1, engine-wide counter
stays 0). -/
theorem c3_engine_total_checks_never_incremented :
    (∀ (cm : ConfigManager) (name t : String) (ev : ProbeEvent) (stat : TargetStat)
        (st : MonitorStatus),
      (site_check_step cm name t ev stat st).status.total_checks = st.total_checks)
    ∧ (∀ (cm : ConfigManager) (name t : String) (ev : ProbeEvent) (stat : TargetStat)
        (st : MonitorStatus),
      (pool_check_step cm name t ev stat st).status.total_checks = st.total_checks)
    ∧ (site_check_step cmW "a" "10:00:00" .ok seed_stat {}).stat.total_checks = 1
    ∧ (site_check_step cmW "a" "10:00:00" .ok seed_stat {}).status.total_checks = 0 := by
  refine ⟨?_, ?_, by decide, by decide⟩
  · intro cm name t ev stat st
    cases ev <;> simp [site_check_step, handle_failure_status_total_checks]
  · intro cm name t ev stat st
    cases ev <;> simp [pool_check_step, handle_failure_status_total_checks]

/-- C5: whenever `_handle_failure` restarts a pool it sleeps the helper's
default of 5 seconds — the configured per-target `restart_delay` is never
passed — as the concrete evaluation shows for a pool configured with
`restart_delay = 10`. -/
theorem c5_restart_delay_not_used :
    (∀ (cm : ConfigManager) (name : String) (env : RestartEnv) (stat : TargetStat)
        (st : MonitorStatus),
      (handle_failure cm name .pool env stat st).slept = [] ∨
      (handle_failure cm name .pool env stat st).slept = [5])
    ∧ (cmC5.app_pools.lookup "p").map AppPoolConfig.restart_delay = some 10
    ∧ (handle_failure cmC5 "p" .pool ⟨true, true⟩ statAt3 {}).attempted = true
    ∧ (handle_failure cmC5 "p" .pool ⟨true, true⟩ statAt3 {}).slept = [5] := by
  refine ⟨?_, by decide, by decide, by decide⟩
  intro cm name env stat st
  rw [handle_failure_slept]
  split_ifs <;> simp

/-- C6 counterexample: a pool whose own configuration sets
`auto_restart = false` still gets a restart attempt once its `fail_count`
reaches the threshold with `global_auto_restart` on, contradicting the claim
that the per-target flag gates remediation. -/
theorem c6_counterexample :
    (cmC6.app_pools.lookup "p").map AppPoolConfig.auto_restart = some false
    ∧ cmC6.global_auto_restart = true
    ∧ (handle_failure cmC6 "p" .pool ⟨true, true⟩ statAt3 {}).attempted = true := by
  decide

/-- C6 (amended): a pool remediation restart is attempted exactly when the
post-increment `fail_count` has reached `max_failures`, `global_auto_restart`
is enabled, and the pool's name has an entry in the pool configuration map;
the per-target `auto_restart` flag is never consulted (it does not appear in
the condition). -/
theorem c6_pool_gate_is_membership_only :
    ∀ (cm : ConfigManager) (name : String) (env : RestartEnv) (stat : TargetStat)
      (st : MonitorStatus),
      (handle_failure cm name .pool env stat st).attempted =
        (decide (cm.max_failures ≤ stat.fail_count) && cm.global_auto_restart &&
          (cm.app_pools.lookup name).isSome) := by
  intro cm name env stat st
  rw [handle_failure_attempted]
  rfl

/-- C7 counterexample: a site probe that raises (the `except` path of
`_check_cycle`) updates `last_check` to the new time but leaves the per-target
`total_checks` counter at its old value, so the two fields are not updated
together on that path. -/
theorem c7_counterexample :
    (site_check_step cmW "a" "10:05:00" (.probeErr ⟨true, false⟩) statC7 {}).stat.last_check
        = "10:05:00"
    ∧ (site_check_step cmW "a" "10:05:00" (.probeErr ⟨true, false⟩) statC7 {}).stat.total_checks
        = 7 := by
  decide

/-- C7 (amended): on the healthy and in-band failing paths of both kinds,
`last_check` and the per-target `total_checks` are written together inside the
same locked block (the new time and a one-step increment); on the site
probe-exception path `last_check` is written while `total_checks` is left
unchanged; a pool probe exception changes nothing. -/
theorem c7_accounting_paths :
    ∀ (cm : ConfigManager) (name t : String) (env : RestartEnv) (stat : TargetStat)
      (st : MonitorStatus),
      ((site_check_step cm name t .ok stat st).stat.last_check = t
        ∧ (site_check_step cm name t .ok stat st).stat.total_checks =
            stat.total_checks + 1)
      ∧ ((site_check_step cm name t (.fail env) stat st).stat.last_check = t
        ∧ (site_check_step cm name t (.fail env) stat st).stat.total_checks =
            stat.total_checks + 1)
      ∧ ((pool_check_step cm name t .ok stat st).stat.last_check = t
        ∧ (pool_check_step cm name t .ok stat st).stat.total_checks =
            stat.total_checks + 1)
      ∧ ((pool_check_step cm name t (.fail env) stat st).stat.last_check = t
        ∧ (pool_check_step cm name t (.fail env) stat st).stat.total_checks =
            stat.total_checks + 1)
      ∧ ((site_check_step cm name t (.probeErr env) stat st).stat.last_check = t
        ∧ (site_check_step cm name t (.probeErr env) stat st).stat.total_checks =
            stat.total_checks)
      ∧ (pool_check_step cm name t (.probeErr env) stat st).stat = stat := by
  intro cm name t env stat st
  refine ⟨⟨rfl, rfl⟩, ⟨?_, ?_⟩, ⟨rfl, rfl⟩, ⟨?_, ?_⟩, ⟨?_, ?_⟩, rfl⟩
  · simp [site_check_step, handle_failure_stat_last_check]
  · simp [site_check_step, handle_failure_stat_total_checks]
  · simp [pool_check_step, handle_failure_stat_last_check]
  · simp [pool_check_step, handle_failure_stat_total_checks]
  · simp [site_check_step, handle_failure_stat_last_check]
  · simp [site_check_step, handle_failure_stat_total_checks]

/-- C4 counterexample: starting the engine over a table whose entry `a` (a
configured name) has `fail_count = 2` leaves that entry untouched rather than
re-seeding it to `unknown`/0, and keeps the stale entry `b` even though `b`
is absent from the configuration; likewise a bulk update that replaces the
website map by `{new}` keeps the stale entry `b` (it only seeds `new`). -/
theorem c4_counterexample :
    (Engine.start cmC4 "2024-01-01 10:00:00" engC4).1.website_status "a" =
      some { status := "error", fail_count := 2, last_check := "09:59:00", total_checks := 7 }
    ∧ (Engine.start cmC4 "2024-01-01 10:00:00" engC4).1.website_status "b" =
      some { status := "error", fail_count := 4, last_check := "09:58:00", total_checks := 9 }
    ∧ (save_web_config_apply [("new", RawEntry.obj [])] tblC4).2 "b" =
      some { status := "error", fail_count := 4, last_check := "09:58:00", total_checks := 9 }
    ∧ (save_web_config_apply [("new", RawEntry.obj [])] tblC4).2 "new" = some seed_stat := by
  decide

/-- C4 (amended): `start()` and the bulk updates reseed lazily through
`_init_status`: a configured name missing from the state table gets a fresh
`unknown`/0 entry, while every existing entry — including entries for names
absent from the new configuration — is preserved unchanged and never
removed. -/
theorem c4_lazy_reseed :
    (∀ (cm : ConfigManager) (now : String) (e : Engine), e.running = false →
      (∀ (n : String) (s : TargetStat), e.website_status n = some s →
        (Engine.start cm now e).1.website_status n = some s)
      ∧ (∀ n : String, e.website_status n = none →
          ((Engine.start cm now e).1.website_status n = some seed_stat ↔
            n ∈ cm.websites.map Prod.fst)))
    ∧ (∀ (data : List (String × RawEntry)) (table : String → Option TargetStat),
      (∀ (n : String) (s : TargetStat), table n = some s →
        (save_web_config_apply data table).2 n = some s)
      ∧ (∀ n : String, table n = none →
          ((save_web_config_apply data table).2 n = some seed_stat ↔
            n ∈ (save_web_config data).entries.map Prod.fst))) := by
  constructor
  · intro cm now e hrun
    constructor
    · intro n s hsome
      simp [Engine.start, hrun, init_status, hsome]
    · intro n hnone
      simp only [Engine.start, hrun, Bool.false_eq_true, if_false]
      by_cases hm : n ∈ cm.websites.map Prod.fst <;> simp [init_status, hnone, hm]
  · intro data table
    constructor
    · intro n s hsome
      simp [save_web_config_apply, init_status, hsome]
    · intro n hnone
      by_cases hm : n ∈ (save_web_config data).entries.map Prod.fst <;>
        simp [save_web_config_apply, init_status, hnone, hm]

/-- C4 witness: the amended behaviour evaluated at the concrete table — the
existing entry `a` survives `start()` unchanged, and the stale entry `b`
survives the bulk update that replaced the map by `{new}`. -/
theorem c4_lazy_reseed_witness :
    (Engine.start cmC4 "2024-01-01 10:00:00" engC4).1.website_status "a" =
      some { status := "error", fail_count := 2, last_check := "09:59:00", total_checks := 7 }
    ∧ (save_web_config_apply [("new", RawEntry.obj [])] tblC4).2 "b" =
      some { status := "error", fail_count := 4, last_check := "09:58:00", total_checks := 9 } := by
  have h := c4_lazy_reseed
  exact ⟨(h.1 cmC4 "2024-01-01 10:00:00" engC4 rfl).1 "a" _ (by decide),
    (h.2 [("new", RawEntry.obj [])] tblC4).1 "b" _ (by decide)⟩

/-- C8 counterexample: the snapshot returned before a mutation changes its
contents afterwards — after the engine bumps `a`'s `fail_count` in place, the
previously returned snapshot shows the new value 1 where it showed 0, because
`dict(...)` copies only the outer map and the inner stat dicts are shared. -/
theorem c8_counterexample :
    snapshot_websites (get_status_snapshot snapEngC8) snapEngC8.heap "a" =
      some { status := "ok", fail_count := 0, last_check := "10:00:00", total_checks := 3 }
    ∧ snapshot_websites (get_status_snapshot snapEngC8)
        (bump_fail_count snapEngC8 "a").heap "a" =
      some { status := "ok", fail_count := 1, last_check := "10:00:00", total_checks := 3 } := by
  decide

/-- C8 (amended): `get_status_snapshot` copies the status-block scalars by
value and copies the outer per-target map, but each per-target entry aliases
the engine's mutable stat dict: an in-place mutation of a target's stat after
the snapshot is visible through the previously returned snapshot, while an
entry added to the engine's map after the copy is not. -/
theorem c8_snapshot_inner_aliasing :
    ∀ (e : SnapEngine) (name : String) (r : Nat),
      e.website_refs.lookup name = some r →
        (get_status_snapshot e).monitor = e.status
        ∧ snapshot_websites (get_status_snapshot e) e.heap name = some (e.heap r)
        ∧ snapshot_websites (get_status_snapshot e) (bump_fail_count e name).heap name =
            some { e.heap r with fail_count := (e.heap r).fail_count + 1 }
        ∧ (∀ (nm : String) (q : Nat) (s : TargetStat), e.website_refs.lookup nm = none →
            snapshot_websites (get_status_snapshot e) (seed_new_website e nm q s).heap nm =
              none) := by
  intro e name r h
  refine ⟨rfl, ?_, ?_, ?_⟩
  · simp [snapshot_websites, get_status_snapshot, h]
  · simp [snapshot_websites, get_status_snapshot, bump_fail_count, h]
  · intro nm q s hn
    simp [snapshot_websites, get_status_snapshot, seed_new_website, hn]

/-- C8 witness: the aliasing statement evaluated on the concrete engine — the
old snapshot of `a` reflects the engine's in-place `fail_count` bump. -/
theorem c8_snapshot_inner_aliasing_witness :
    snapshot_websites (get_status_snapshot snapEngC8) (bump_fail_count snapEngC8 "a").heap "a" =
      some { snapEngC8.heap 0 with fail_count := (snapEngC8.heap 0).fail_count + 1 } :=
  (c8_snapshot_inner_aliasing snapEngC8 "a" 0 (by decide)).2.2.1

/-- Closed form of the bulk-update loop: applied entries, their count, and
recorded errors are each a `filterMap` over the input, independently of the
starting accumulator. -/
theorem save_entries_go_eq {α : Type} (parse : RawEntry → Option α)
    (data : List (String × RawEntry)) :
    ∀ acc : SaveOutcome α,
      save_entries_go parse acc data =
        { entries := acc.entries ++ data.filterMap (fun p =>
            if p.1 = "" ∨ py_strip p.1 = "" then none
            else (parse p.2).map (fun c => (p.1, c)))
          success_count := acc.success_count + (data.filterMap (fun p =>
            if p.1 = "" ∨ py_strip p.1 = "" then none
            else (parse p.2).map (fun c => (p.1, c)))).length
          errors := acc.errors ++ data.filterMap (fun p =>
            if p.1 = "" ∨ py_strip p.1 = "" then none
            else
              match parse p.2 with
              | some _ => none
              | none => some p.1) } := by
  induction data with
  | nil => intro acc; simp [save_entries_go]
  | cons p rest ih =>
      intro acc
      obtain ⟨n, e⟩ := p
      by_cases hskip : n = "" ∨ py_strip n = ""
      · simp [save_entries_go, hskip, ih]
      · rcases hp : parse e with _ | cfg
        · simp [save_entries_go, hskip, hp, ih]
        · simp [save_entries_go, hskip, hp, ih]
          omega

/-- Membership in the applied entries of a bulk update, characterised entry by
entry. -/
theorem save_entries_mem_entries {α : Type} (parse : RawEntry → Option α)
    (data : List (String × RawEntry)) (name : String) (cfg : α) :
    ((name, cfg) ∈ (save_entries parse data).entries ↔
      ∃ raw, (name, raw) ∈ data ∧ ¬(name = "" ∨ py_strip name = "") ∧
        parse raw = some cfg) := by
  rw [save_entries, save_entries_go_eq]
  simp only [List.nil_append, List.mem_filterMap]
  constructor
  · rintro ⟨⟨n, raw⟩, hmem, hgood⟩
    by_cases hskip : n = "" ∨ py_strip n = ""
    · simp [hskip] at hgood
    · rcases hparse : parse raw with _ | c
      · simp [hskip, hparse] at hgood
      · simp only [hskip, if_neg, hparse, Option.map_some', Option.some.injEq,
          Prod.mk.injEq, not_false_eq_true] at hgood
        obtain ⟨hn, hc⟩ := hgood
        subst hn; subst hc
        exact ⟨raw, hmem, hskip, hparse⟩
  · rintro ⟨raw, hmem, hskip, hparse⟩
    exact ⟨(name, raw), hmem, by simp [hskip, hparse]⟩

/-- Membership in the recorded errors of a bulk update, characterised entry by
entry. -/
theorem save_entries_mem_errors {α : Type} (parse : RawEntry → Option α)
    (data : List (String × RawEntry)) (name : String) :
    (name ∈ (save_entries parse data).errors ↔
      ∃ raw, (name, raw) ∈ data ∧ ¬(name = "" ∨ py_strip name = "") ∧
        parse raw = none) := by
  rw [save_entries, save_entries_go_eq]
  simp only [List.nil_append, List.mem_filterMap]
  constructor
  · rintro ⟨⟨n, raw⟩, hmem, hbad⟩
    by_cases hskip : n = "" ∨ py_strip n = ""
    · simp [hskip] at hbad
    · rcases hparse : parse raw with _ | c
      · simp only [hskip, if_neg, hparse, Option.some.injEq, not_false_eq_true] at hbad
        subst hbad
        exact ⟨raw, hmem, hskip, hparse⟩
      · simp [hskip, hparse] at hbad
  · rintro ⟨raw, hmem, hskip, hparse⟩
    exact ⟨(name, raw), hmem, by simp [hskip, hparse]⟩

/-- C9 counterexample: the bulk pool update applies the entry
`{"restart_delay": -1}` — an out-of-range value (a negative sleep) — counting
it as a success and recording no error, instead of skipping it and recording
an error as the claim states; the neighbouring entry with an unconvertible
`restart_delay` shows what recording an error actually looks like. -/
theorem c9_counterexample :
    save_pool_config
        [("p", RawEntry.obj [("restart_delay", JVal.int (-1))]),
         ("q", RawEntry.obj [("restart_delay", JVal.null)])] =
      { entries := [("p", { enabled := true, auto_restart := true, restart_delay := -1 })]
        success_count := 1
        errors := ["q"] } := by
  decide

/-- C9 (amended): entries of a bulk per-target update are validated
independently — an entry (with a nonempty name) is recorded as an error by
name exactly when one of its numeric fields fails Python's `int(...)`
conversion (wrong type), and is applied exactly when conversion succeeds, in
each case regardless of every other entry in the batch, so a single bad entry
never fails the whole operation; out-of-range but convertible values are not
detected and are applied. -/
theorem c9_per_entry_validation :
    ∀ (data : List (String × RawEntry)) (name : String),
      (∀ cfg : WebsiteConfig,
        ((name, cfg) ∈ (save_web_config data).entries ↔
          ∃ raw, (name, raw) ∈ data ∧ ¬(name = "" ∨ py_strip name = "") ∧
            parse_website_entry raw = some cfg))
      ∧ (name ∈ (save_web_config data).errors ↔
          ∃ raw, (name, raw) ∈ data ∧ ¬(name = "" ∨ py_strip name = "") ∧
            parse_website_entry raw = none)
      ∧ (∀ cfg : AppPoolConfig,
        ((name, cfg) ∈ (save_pool_config data).entries ↔
          ∃ raw, (name, raw) ∈ data ∧ ¬(name = "" ∨ py_strip name = "") ∧
            parse_pool_entry raw = some cfg))
      ∧ (name ∈ (save_pool_config data).errors ↔
          ∃ raw, (name, raw) ∈ data ∧ ¬(name = "" ∨ py_strip name = "") ∧
            parse_pool_entry raw = none) := by
  intro data name
  exact ⟨fun cfg => save_entries_mem_entries parse_website_entry data name cfg,
    save_entries_mem_errors parse_website_entry data name,
    fun cfg => save_entries_mem_entries parse_pool_entry data name cfg,
    save_entries_mem_errors parse_pool_entry data name⟩

end IISMon
